import Mathlib

/-!
Verification of the phased orchestration engine of `pkg/orchestration/docker.go`
from the `httpmicrobench` repository, as a shallow embedding in Lean.

Go errors are modelled by the inductive `GoErr`: `fmt.Errorf("...: %w", e)`
becomes `GoErr.wrap msg e`, and `errors.Join` (which in this code base is only
ever applied to two arguments, the second possibly nil) becomes `goJoin`.
Steps are state transformers `σ → σ × Option GoErr`; the three phase loops of
`DockerOrchestrator.Run` are translated line by line.
-/

namespace Orchestration

/-- Model of Go error values as built by docker.go: `base` is a leaf error from
the backend, `wrap` is `fmt.Errorf` with `%w`, `joinOne`/`joinTwo` are
`errors.Join` applied to one resp. two non-nil errors. -/
inductive GoErr : Type where
  | base : String → GoErr
  | wrap : String → GoErr → GoErr
  | joinOne : GoErr → GoErr
  | joinTwo : GoErr → GoErr → GoErr
deriving DecidableEq

/-- `errors.Join(e, r)` where `e` is non-nil and `r` may be nil: Go returns a
join error holding the non-nil arguments. -/
def goJoin (e : GoErr) (r : Option GoErr) : GoErr :=
  match r with
  | none => GoErr.joinOne e
  | some r0 => GoErr.joinTwo e r0

/-- `errMentions e t` holds when `t` occurs in `e`, possibly under `wrap` and
join layers: the Lean counterpart of `errors.Is`-style reachability through
the `Unwrap` tree. -/
def errMentions (e t : GoErr) : Bool :=
  decide (e = t) ||
    match e with
    | GoErr.base _ => false
    | GoErr.wrap _ e1 => errMentions e1 t
    | GoErr.joinOne e1 => errMentions e1 t
    | GoErr.joinTwo e1 e2 => errMentions e1 t || errMentions e2 t

/-- `type RunStep func(context.Context, *client.Client) error`.  The context
and client are abstracted into a state `σ` threaded through the step; the
returned `Option GoErr` is the Go error (`none` = nil). -/
def RunStep (σ : Type) : Type := σ → σ × Option GoErr

/-- `type DockerOrchestrator struct { pre, run, pos []RunStep ... }`. -/
structure DockerOrchestrator (σ : Type) : Type where
  pre : List (RunStep σ)
  run : List (RunStep σ)
  pos : List (RunStep σ)

/-- `WithPreRunStep` appends to the pre-run steps. -/
def DockerOrchestrator.WithPreRunStep (o : DockerOrchestrator σ)
    (steps : List (RunStep σ)) : DockerOrchestrator σ :=
  { o with pre := o.pre ++ steps }

/-- `WithRunStep` appends to the run steps. -/
def DockerOrchestrator.WithRunStep (o : DockerOrchestrator σ)
    (steps : List (RunStep σ)) : DockerOrchestrator σ :=
  { o with run := o.run ++ steps }

/-- `WithPosRunStep` appends to the post-run steps. -/
def DockerOrchestrator.WithPosRunStep (o : DockerOrchestrator σ)
    (steps : List (RunStep σ)) : DockerOrchestrator σ :=
  { o with pos := o.pos ++ steps }

/-- The pre loop of `DockerOrchestrator.Run` (docker.go lines 61-65): the first
failure returns immediately, wrapped as `failed running pre run step`. -/
def preLoop : List (RunStep σ) → σ → σ × Option GoErr
  | [], s => (s, none)
  | st :: rest, s =>
    match st s with
    | (s1, some e) => (s1, some (GoErr.wrap "failed running pre run step" e))
    | (s1, none) => preLoop rest s1

/-- The run loop of `DockerOrchestrator.Run` (docker.go lines 67-73): the first
failure is remembered as `runErr` (wrapped as `failed running step`) and the
loop breaks. -/
def runLoop : List (RunStep σ) → σ → σ × Option GoErr
  | [], s => (s, none)
  | st :: rest, s =>
    match st s with
    | (s1, some e) => (s1, some (GoErr.wrap "failed running step" e))
    | (s1, none) => runLoop rest s1

/-- The pos loop of `DockerOrchestrator.Run` (docker.go lines 75-80): on the
first failure `runErr` becomes `errors.Join(wrapped pos error, runErr)` and the
loop breaks; otherwise `runErr` is returned unchanged. -/
def posLoop : List (RunStep σ) → σ → Option GoErr → σ × Option GoErr
  | [], s, runErr => (s, runErr)
  | st :: rest, s, runErr =>
    match st s with
    | (s1, some e) =>
        (s1, some (goJoin (GoErr.wrap "failed running pos run step" e) runErr))
    | (s1, none) => posLoop rest s1 runErr

/-- `func (o *DockerOrchestrator) Run(ctx context.Context) error`
(docker.go lines 60-83). -/
def DockerOrchestrator.Run (o : DockerOrchestrator σ) (s : σ) : σ × Option GoErr :=
  match preLoop o.pre s with
  | (s1, some e) => (s1, some e)
  | (s1, none) =>
    match runLoop o.run s1 with
    | (s2, runErr) => posLoop o.pos s2 runErr

/-- All steps in the list succeed when executed in sequence from `s`. -/
def stepsOk : List (RunStep σ) → σ → Bool
  | [], _ => true
  | st :: rest, s => (st s).2.isNone && stepsOk rest (st s).1

/-- The state after executing all steps in sequence (ignoring errors). -/
def stepsRun : List (RunStep σ) → σ → σ
  | [], s => s
  | st :: rest, s => stepsRun rest (st s).1

theorem preLoop_ok {σ : Type} (l : List (RunStep σ)) (s : σ)
    (h : stepsOk l s = true) : preLoop l s = (stepsRun l s, none) := by
  induction l generalizing s with
  | nil => simp [preLoop, stepsRun]
  | cons st rest ih =>
    simp only [stepsOk, Bool.and_eq_true, Option.isNone_iff_eq_none] at h
    simp only [preLoop, stepsRun]
    rw [show st s = ((st s).1, (st s).2) from rfl, h.1]
    exact ih _ h.2

theorem preLoop_append_ok {σ : Type} (l1 l2 : List (RunStep σ)) (s : σ)
    (h : stepsOk l1 s = true) :
    preLoop (l1 ++ l2) s = preLoop l2 (stepsRun l1 s) := by
  induction l1 generalizing s with
  | nil => simp [stepsRun]
  | cons st rest ih =>
    simp only [stepsOk, Bool.and_eq_true, Option.isNone_iff_eq_none] at h
    simp only [List.cons_append, preLoop, stepsRun]
    rw [show st s = ((st s).1, (st s).2) from rfl, h.1]
    exact ih _ h.2

theorem runLoop_ok {σ : Type} (l : List (RunStep σ)) (s : σ)
    (h : stepsOk l s = true) : runLoop l s = (stepsRun l s, none) := by
  induction l generalizing s with
  | nil => simp [runLoop, stepsRun]
  | cons st rest ih =>
    simp only [stepsOk, Bool.and_eq_true, Option.isNone_iff_eq_none] at h
    simp only [runLoop, stepsRun]
    rw [show st s = ((st s).1, (st s).2) from rfl, h.1]
    exact ih _ h.2

theorem runLoop_append_ok {σ : Type} (l1 l2 : List (RunStep σ)) (s : σ)
    (h : stepsOk l1 s = true) :
    runLoop (l1 ++ l2) s = runLoop l2 (stepsRun l1 s) := by
  induction l1 generalizing s with
  | nil => simp [stepsRun]
  | cons st rest ih =>
    simp only [stepsOk, Bool.and_eq_true, Option.isNone_iff_eq_none] at h
    simp only [List.cons_append, runLoop, stepsRun]
    rw [show st s = ((st s).1, (st s).2) from rfl, h.1]
    exact ih _ h.2

theorem posLoop_ok {σ : Type} (l : List (RunStep σ)) (s : σ) (r : Option GoErr)
    (h : stepsOk l s = true) : posLoop l s r = (stepsRun l s, r) := by
  induction l generalizing s with
  | nil => simp [posLoop, stepsRun]
  | cons st rest ih =>
    simp only [stepsOk, Bool.and_eq_true, Option.isNone_iff_eq_none] at h
    simp only [posLoop, stepsRun]
    rw [show st s = ((st s).1, (st s).2) from rfl, h.1]
    exact ih _ h.2

theorem posLoop_append_ok {σ : Type} (l1 l2 : List (RunStep σ)) (s : σ)
    (r : Option GoErr) (h : stepsOk l1 s = true) :
    posLoop (l1 ++ l2) s r = posLoop l2 (stepsRun l1 s) r := by
  induction l1 generalizing s with
  | nil => simp [stepsRun]
  | cons st rest ih =>
    simp only [stepsOk, Bool.and_eq_true, Option.isNone_iff_eq_none] at h
    simp only [List.cons_append, posLoop, stepsRun]
    rw [show st s = ((st s).1, (st s).2) from rfl, h.1]
    exact ih _ h.2

theorem errMentions_self (e : GoErr) : errMentions e e = true := by
  cases e <;> simp [errMentions]

theorem errMentions_wrap_of (msg : String) (e t : GoErr)
    (h : errMentions e t = true) : errMentions (GoErr.wrap msg e) t = true := by
  simp [errMentions, h]

theorem errMentions_goJoin_left (e t : GoErr) (r : Option GoErr)
    (h : errMentions e t = true) : errMentions (goJoin e r) t = true := by
  cases r <;> simp [goJoin, errMentions, h]

theorem errMentions_goJoin_some (e re : GoErr) :
    errMentions (goJoin e (some re)) re = true := by
  simp [goJoin, errMentions, errMentions_self]

theorem preLoop_none_inv {σ : Type} (l : List (RunStep σ)) (s s1 : σ)
    (h : preLoop l s = (s1, none)) :
    stepsOk l s = true ∧ s1 = stepsRun l s := by
  induction l generalizing s with
  | nil =>
    simp [preLoop] at h
    simp [stepsOk, stepsRun, h]
  | cons st rest ih =>
    simp only [preLoop] at h
    rw [show st s = ((st s).1, (st s).2) from rfl] at h
    cases h2 : (st s).2 with
    | some e => rw [h2] at h; simp at h
    | none =>
      rw [h2] at h
      have := ih _ h
      simp [stepsOk, stepsRun, h2, this.1, this.2]

theorem runLoop_none_inv {σ : Type} (l : List (RunStep σ)) (s s1 : σ)
    (h : runLoop l s = (s1, none)) :
    stepsOk l s = true ∧ s1 = stepsRun l s := by
  induction l generalizing s with
  | nil =>
    simp [runLoop] at h
    simp [stepsOk, stepsRun, h]
  | cons st rest ih =>
    simp only [runLoop] at h
    rw [show st s = ((st s).1, (st s).2) from rfl] at h
    cases h2 : (st s).2 with
    | some e => rw [h2] at h; simp at h
    | none =>
      rw [h2] at h
      have := ih _ h
      simp [stepsOk, stepsRun, h2, this.1, this.2]

theorem posLoop_none_inv {σ : Type} (l : List (RunStep σ)) (s : σ)
    (r : Option GoErr) (h : (posLoop l s r).2 = none) :
    stepsOk l s = true ∧ r = none := by
  induction l generalizing s with
  | nil =>
    simp [posLoop] at h
    simp [stepsOk, h]
  | cons st rest ih =>
    simp only [posLoop] at h
    rw [show st s = ((st s).1, (st s).2) from rfl] at h
    cases h2 : (st s).2 with
    | some e => rw [h2] at h; simp at h
    | none =>
      rw [h2] at h
      have := ih _ h
      simp [stepsOk, h2, this.1, this.2]

theorem posLoop_mentions {σ : Type} (l : List (RunStep σ)) (s : σ) (re : GoErr) :
    ∃ r, (posLoop l s (some re)).2 = some r ∧ errMentions r re = true := by
  induction l generalizing s with
  | nil => exact ⟨re, by simp [posLoop], errMentions_self re⟩
  | cons st rest ih =>
    simp only [posLoop]
    rw [show st s = ((st s).1, (st s).2) from rfl]
    cases h2 : (st s).2 with
    | some e =>
      refine ⟨goJoin (GoErr.wrap "failed running pos run step" e) (some re), rfl, ?_⟩
      exact errMentions_goJoin_some _ re
    | none => exact ih (st s).1

/-- When all pre steps succeed, `Run` reduces to the run loop followed by the
pos loop. -/
theorem Run_pre_ok {σ : Type} (o : DockerOrchestrator σ) (s : σ)
    (h : stepsOk o.pre s = true) :
    o.Run s = posLoop o.pos (runLoop o.run (stepsRun o.pre s)).1
      (runLoop o.run (stepsRun o.pre s)).2 := by
  simp only [DockerOrchestrator.Run]
  rw [preLoop_ok _ _ h]

/-! ### Concrete instrumented steps

For witnesses and counterexamples the state is a trace of executed steps:
each entry records the phase (0 = pre, 1 = run, 2 = pos), the step index in
that phase, and the outcome the step returned. -/

/-- Execution trace: one entry per executed step. -/
abbrev Trace : Type := List (Nat × Nat × Option GoErr)

/-- A step that records itself in the trace and returns the fixed outcome. -/
def traceStep (phase idx : Nat) (out : Option GoErr) : RunStep Trace :=
  fun tr => (tr ++ [(phase, idx, out)], out)

/-- The steps of one phase, built from a list of per-step outcomes. -/
def tracePhase (phase : Nat) (outs : List (Option GoErr)) : List (RunStep Trace) :=
  (outs.enum).map (fun p => traceStep phase p.1 p.2)

/-- An orchestrator whose step behaviours are given by outcome lists. -/
def traceOrch (preOuts runOuts posOuts : List (Option GoErr)) :
    DockerOrchestrator Trace :=
  ⟨tracePhase 0 preOuts, tracePhase 1 runOuts, tracePhase 2 posOuts⟩

/-- A concrete instrumented step that succeeds. -/
def okStep (ph i : Nat) : RunStep Trace := traceStep ph i none

/-- A concrete instrumented step that fails with a base error. -/
def failStep (ph i : Nat) (msg : String) : RunStep Trace :=
  traceStep ph i (some (GoErr.base msg))

/-- Claim C4: if the k-th pre step fails then pre steps k+1..n never execute,
no Run or Post step executes (the result coincides with the run of an
orchestrator having no later pre steps and no run or pos steps at all), and
`DockerOrchestrator.Run` immediately returns that single wrapped pre-step
error, never aggregated with any Run or Post error. -/
theorem claim_C4 {σ : Type} (pre1 pre2 runs pos : List (RunStep σ))
    (st : RunStep σ) (s s1 : σ) (e : GoErr)
    (h1 : stepsOk pre1 s = true)
    (h2 : st (stepsRun pre1 s) = (s1, some e)) :
    DockerOrchestrator.Run ⟨pre1 ++ st :: pre2, runs, pos⟩ s
      = (s1, some (GoErr.wrap "failed running pre run step" e))
    ∧ DockerOrchestrator.Run ⟨pre1 ++ st :: pre2, runs, pos⟩ s
      = DockerOrchestrator.Run ⟨pre1 ++ [st], [], []⟩ s := by
  have hpre : ∀ l2 : List (RunStep σ), preLoop (pre1 ++ st :: l2) s
      = (s1, some (GoErr.wrap "failed running pre run step" e)) := by
    intro l2
    rw [preLoop_append_ok _ _ _ h1]
    simp only [preLoop]
    rw [h2]
  refine ⟨?_, ?_⟩
  · simp only [DockerOrchestrator.Run]
    rw [hpre pre2]
  · simp only [DockerOrchestrator.Run]
    rw [hpre pre2, hpre []]

/-- Witness for claim C4 at a concrete three-pre-step orchestrator whose second
pre step fails. -/
theorem claim_C4_witness :
    DockerOrchestrator.Run
        ⟨[okStep 0 0, failStep 0 1 "boom", okStep 0 2], [okStep 1 0], [okStep 2 0]⟩
        ([] : Trace)
      = ([(0, 0, none), (0, 1, some (GoErr.base "boom"))],
         some (GoErr.wrap "failed running pre run step" (GoErr.base "boom")))
    ∧ DockerOrchestrator.Run
        ⟨[okStep 0 0, failStep 0 1 "boom", okStep 0 2], [okStep 1 0], [okStep 2 0]⟩
        ([] : Trace)
      = DockerOrchestrator.Run ⟨[okStep 0 0, failStep 0 1 "boom"], [], []⟩
          ([] : Trace) :=
  @claim_C4 Trace [okStep 0 0] [okStep 0 2] [okStep 1 0] [okStep 2 0]
    (failStep 0 1 "boom") [] [(0, 0, none), (0, 1, some (GoErr.base "boom"))]
    (GoErr.base "boom") (by decide) (by decide)

/-- Claim C3: if the k-th run step fails then run steps k+1..n never execute
(the result coincides with the run of the orchestrator without them), the
pipeline still proceeds to the Post phase, and the wrapped run-step failure is
mentioned in the non-nil error `DockerOrchestrator.Run` returns. -/
theorem claim_C3 {σ : Type} (pre run1 run2 pos : List (RunStep σ))
    (st : RunStep σ) (s s2 : σ) (e : GoErr)
    (hpre : stepsOk pre s = true)
    (hrun1 : stepsOk run1 (stepsRun pre s) = true)
    (hfail : st (stepsRun run1 (stepsRun pre s)) = (s2, some e)) :
    DockerOrchestrator.Run ⟨pre, run1 ++ st :: run2, pos⟩ s
      = posLoop pos s2 (some (GoErr.wrap "failed running step" e))
    ∧ DockerOrchestrator.Run ⟨pre, run1 ++ st :: run2, pos⟩ s
      = DockerOrchestrator.Run ⟨pre, run1 ++ [st], pos⟩ s
    ∧ ∃ r, (DockerOrchestrator.Run ⟨pre, run1 ++ st :: run2, pos⟩ s).2 = some r
        ∧ errMentions r (GoErr.wrap "failed running step" e) = true := by
  have hr : ∀ l2 : List (RunStep σ), runLoop (run1 ++ st :: l2) (stepsRun pre s)
      = (s2, some (GoErr.wrap "failed running step" e)) := by
    intro l2
    rw [runLoop_append_ok _ _ _ hrun1]
    simp only [runLoop]
    rw [hfail]
  have hR : ∀ l2 : List (RunStep σ),
      DockerOrchestrator.Run ⟨pre, run1 ++ st :: l2, pos⟩ s
        = posLoop pos s2 (some (GoErr.wrap "failed running step" e)) := by
    intro l2
    rw [Run_pre_ok _ _ hpre]
    simp only
    rw [hr l2]
  refine ⟨hR run2, ?_, ?_⟩
  · rw [hR run2, hR []]
  · rw [hR run2]
    exact posLoop_mentions pos s2 (GoErr.wrap "failed running step" e)

/-- Witness for claim C3 at a concrete orchestrator whose first of two run
steps fails: the second run step never executes, both pos steps run, and the
returned error mentions the wrapped run failure. -/
theorem claim_C3_witness :
    DockerOrchestrator.Run
        ⟨[okStep 0 0], [failStep 1 0 "rboom", okStep 1 1], [okStep 2 0]⟩
        ([] : Trace)
      = posLoop [okStep 2 0] [(0, 0, none), (1, 0, some (GoErr.base "rboom"))]
          (some (GoErr.wrap "failed running step" (GoErr.base "rboom")))
    ∧ DockerOrchestrator.Run
        ⟨[okStep 0 0], [failStep 1 0 "rboom", okStep 1 1], [okStep 2 0]⟩
        ([] : Trace)
      = DockerOrchestrator.Run ⟨[okStep 0 0], [failStep 1 0 "rboom"], [okStep 2 0]⟩
          ([] : Trace)
    ∧ ∃ r,
        (DockerOrchestrator.Run
            ⟨[okStep 0 0], [failStep 1 0 "rboom", okStep 1 1], [okStep 2 0]⟩
            ([] : Trace)).2 = some r
        ∧ errMentions r (GoErr.wrap "failed running step" (GoErr.base "rboom")) = true :=
  @claim_C3 Trace [okStep 0 0] [] [okStep 1 1] [okStep 2 0]
    (failStep 1 0 "rboom") [] [(0, 0, none), (1, 0, some (GoErr.base "rboom"))]
    (GoErr.base "rboom") (by decide) (by decide) (by decide)

/-- Counterexample to claim C1: an orchestrator with two pos steps that both
fail.  Only the first pos step executes (the trace holds a single pos entry),
and the returned error does not mention the second pos step's failure, so the
Post phase does short-circuit and does not aggregate every Post failure. -/
theorem claim_C1_cex :
    (traceOrch [] [] [some (GoErr.base "p0"), some (GoErr.base "p1")]).Run []
      = ([(2, 0, some (GoErr.base "p0"))],
         some (GoErr.joinOne (GoErr.wrap "failed running pos run step" (GoErr.base "p0"))))
    ∧ errMentions
        (GoErr.joinOne (GoErr.wrap "failed running pos run step" (GoErr.base "p0")))
        (GoErr.base "p1") = false := by
  decide

/-- Claim C1 (amended): the Post phase executes pos steps in registration
order only until the first pos failure; a failing pos step stops the remaining
pos steps, and the returned error joins that first Post failure with the
remembered Run failure (if any).  When every pos step succeeds the remembered
Run failure (or nil) is returned unchanged. -/
theorem claim_C1 {σ : Type} (pre runs pos1 pos2 : List (RunStep σ))
    (st : RunStep σ) (s s2 s3 : σ) (rerr : Option GoErr) (e : GoErr)
    (hpre : stepsOk pre s = true)
    (hrun : runLoop runs (stepsRun pre s) = (s2, rerr))
    (hpos1 : stepsOk pos1 s2 = true)
    (hfail : st (stepsRun pos1 s2) = (s3, some e)) :
    DockerOrchestrator.Run ⟨pre, runs, pos1 ++ st :: pos2⟩ s
      = (s3, some (goJoin (GoErr.wrap "failed running pos run step" e) rerr))
    ∧ DockerOrchestrator.Run ⟨pre, runs, pos1 ++ st :: pos2⟩ s
      = DockerOrchestrator.Run ⟨pre, runs, pos1 ++ [st]⟩ s
    ∧ ∀ pos : List (RunStep σ), stepsOk pos s2 = true →
        DockerOrchestrator.Run ⟨pre, runs, pos⟩ s = (stepsRun pos s2, rerr) := by
  have key : ∀ l2 : List (RunStep σ),
      DockerOrchestrator.Run ⟨pre, runs, pos1 ++ st :: l2⟩ s
        = (s3, some (goJoin (GoErr.wrap "failed running pos run step" e) rerr)) := by
    intro l2
    rw [Run_pre_ok _ _ hpre]
    simp only
    rw [hrun]
    simp only
    rw [posLoop_append_ok _ _ _ _ hpos1]
    simp only [posLoop]
    rw [hfail]
  refine ⟨key pos2, by rw [key pos2, key []], ?_⟩
  intro pos hok
  rw [Run_pre_ok _ _ hpre]
  simp only
  rw [hrun]
  simp only
  exact posLoop_ok _ _ _ hok

/-- Witness for amended claim C1: run step fails, first of two pos steps
fails; the second pos step never executes and the result joins the first pos
failure with the remembered run failure. -/
theorem claim_C1_witness :
    DockerOrchestrator.Run
        ⟨[], [failStep 1 0 "rboom"], [failStep 2 0 "p0", failStep 2 1 "p1"]⟩
        ([] : Trace)
      = ([(1, 0, some (GoErr.base "rboom")), (2, 0, some (GoErr.base "p0"))],
         some (goJoin (GoErr.wrap "failed running pos run step" (GoErr.base "p0"))
           (some (GoErr.wrap "failed running step" (GoErr.base "rboom")))))
    ∧ DockerOrchestrator.Run
        ⟨[], [failStep 1 0 "rboom"], [failStep 2 0 "p0", failStep 2 1 "p1"]⟩
        ([] : Trace)
      = DockerOrchestrator.Run ⟨[], [failStep 1 0 "rboom"], [failStep 2 0 "p0"]⟩
          ([] : Trace) := by
  have h := @claim_C1 Trace [] [failStep 1 0 "rboom"] [] [failStep 2 1 "p1"]
    (failStep 2 0 "p0") [] [(1, 0, some (GoErr.base "rboom"))]
    [(1, 0, some (GoErr.base "rboom")), (2, 0, some (GoErr.base "p0"))]
    (some (GoErr.wrap "failed running step" (GoErr.base "rboom")))
    (GoErr.base "p0") (by decide) (by decide) (by decide) (by decide)
  exact ⟨h.1, h.2.1⟩

/-- Claim C5: `DockerOrchestrator.Run` returns nil iff every executed pre, run
and pos step returned nil (equivalently: all three phases fully succeed);
otherwise the non-nil error mentions whichever of the pre failure, the
remembered Run failure and the (first) Post failure occurred. -/
theorem claim_C5 {σ : Type} (o : DockerOrchestrator σ) (s : σ) :
    ((o.Run s).2 = none ↔
       stepsOk o.pre s = true
       ∧ stepsOk o.run (stepsRun o.pre s) = true
       ∧ stepsOk o.pos (stepsRun o.run (stepsRun o.pre s)) = true)
    ∧ (∀ pre1 (st : RunStep σ) pre2 s1 e, o.pre = pre1 ++ st :: pre2 →
         stepsOk pre1 s = true → st (stepsRun pre1 s) = (s1, some e) →
         ∃ r, (o.Run s).2 = some r ∧ errMentions r e = true)
    ∧ (∀ s2 re, stepsOk o.pre s = true →
         runLoop o.run (stepsRun o.pre s) = (s2, some re) →
         ∃ r, (o.Run s).2 = some r ∧ errMentions r re = true)
    ∧ (∀ pos1 (st : RunStep σ) pos2 s2 rerr s3 e, stepsOk o.pre s = true →
         runLoop o.run (stepsRun o.pre s) = (s2, rerr) →
         o.pos = pos1 ++ st :: pos2 → stepsOk pos1 s2 = true →
         st (stepsRun pos1 s2) = (s3, some e) →
         ∃ r, (o.Run s).2 = some r ∧ errMentions r e = true
            ∧ ∀ re, rerr = some re → errMentions r re = true) := by
  refine ⟨⟨?_, ?_⟩, ?_, ?_, ?_⟩
  · intro h
    cases hp : preLoop o.pre s with
    | mk s1 pe =>
      cases pe with
      | some e =>
        exfalso
        simp only [DockerOrchestrator.Run] at h
        rw [hp] at h
        simp at h
      | none =>
        obtain ⟨hok1, hs1⟩ := preLoop_none_inv _ _ _ hp
        simp only [DockerOrchestrator.Run] at h
        rw [hp] at h
        simp only at h
        rw [show runLoop o.run s1 = ((runLoop o.run s1).1, (runLoop o.run s1).2)
            from rfl] at h
        obtain ⟨hok3, h2⟩ := posLoop_none_inv _ _ _ h
        have hrl : runLoop o.run s1 = ((runLoop o.run s1).1, none) := by
          rw [← h2]
        obtain ⟨hok2, hs2⟩ := runLoop_none_inv _ _ _ hrl
        subst hs1
        rw [hs2] at hok3
        exact ⟨hok1, hok2, hok3⟩
  · rintro ⟨h1, h2, h3⟩
    rw [Run_pre_ok _ _ h1]
    rw [runLoop_ok _ _ h2]
    simp only
    rw [posLoop_ok _ _ _ h3]
  · intro pre1 st pre2 s1 e hdecomp h1 h2
    have hp : preLoop o.pre s
        = (s1, some (GoErr.wrap "failed running pre run step" e)) := by
      rw [hdecomp, preLoop_append_ok _ _ _ h1]
      simp only [preLoop]
      rw [h2]
    refine ⟨GoErr.wrap "failed running pre run step" e, ?_, ?_⟩
    · simp only [DockerOrchestrator.Run]
      rw [hp]
    · exact errMentions_wrap_of _ _ _ (errMentions_self e)
  · intro s2 re h1 hr
    have heq : o.Run s = posLoop o.pos s2 (some re) := by
      rw [Run_pre_ok _ _ h1]
      rw [hr]
    rw [heq]
    exact posLoop_mentions o.pos s2 re
  · intro pos1 st pos2 s2 rerr s3 e h1 hr hdecomp hok hf
    have heq : o.Run s
        = (s3, some (goJoin (GoErr.wrap "failed running pos run step" e) rerr)) := by
      rw [Run_pre_ok _ _ h1]
      rw [hr]
      simp only
      rw [hdecomp, posLoop_append_ok _ _ _ _ hok]
      simp only [posLoop]
      rw [hf]
    refine ⟨goJoin (GoErr.wrap "failed running pos run step" e) rerr,
      by rw [heq], ?_, ?_⟩
    · exact errMentions_goJoin_left _ _ _
        (errMentions_wrap_of _ _ _ (errMentions_self e))
    · intro re hre
      subst hre
      exact errMentions_goJoin_some _ _

/-- Witness for claim C5 at a concrete orchestrator: run step fails, the pos
step fails too, the result is non-nil, mentions both failures, and the iff
characterisation of the nil result is exercised. -/
theorem claim_C5_witness :
    (((DockerOrchestrator.mk [okStep 0 0] [failStep 1 0 "r"] [failStep 2 0 "p"]).Run
        ([] : Trace)).2 = none ↔
      stepsOk [okStep 0 0] ([] : Trace) = true
      ∧ stepsOk [failStep 1 0 "r"]
          (stepsRun [okStep 0 0] ([] : Trace)) = true
      ∧ stepsOk [failStep 2 0 "p"]
          (stepsRun [failStep 1 0 "r"] (stepsRun [okStep 0 0] ([] : Trace))) = true)
    ∧ (∃ r, ((DockerOrchestrator.mk [okStep 0 0] [failStep 1 0 "r"]
          [failStep 2 0 "p"]).Run ([] : Trace)).2 = some r
        ∧ errMentions r (GoErr.wrap "failed running step" (GoErr.base "r")) = true)
    ∧ (∃ r, ((DockerOrchestrator.mk [okStep 0 0] [failStep 1 0 "r"]
          [failStep 2 0 "p"]).Run ([] : Trace)).2 = some r
        ∧ errMentions r (GoErr.base "p") = true
        ∧ ∀ re, (some (GoErr.wrap "failed running step" (GoErr.base "r"))
              : Option GoErr) = some re →
            errMentions r re = true) := by
  have h := @claim_C5 Trace
    (DockerOrchestrator.mk [okStep 0 0] [failStep 1 0 "r"] [failStep 2 0 "p"]) []
  refine ⟨h.1, ?_, ?_⟩
  · exact h.2.2.1 [(0, 0, none), (1, 0, some (GoErr.base "r"))]
      (GoErr.wrap "failed running step" (GoErr.base "r")) (by decide) (by decide)
  · exact h.2.2.2 [] (failStep 2 0 "p") []
      [(0, 0, none), (1, 0, some (GoErr.base "r"))]
      (some (GoErr.wrap "failed running step" (GoErr.base "r")))
      [(0, 0, none), (1, 0, some (GoErr.base "r")), (2, 0, some (GoErr.base "p"))]
      (GoErr.base "p") (by decide) (by decide) rfl (by decide) (by decide)

/-! ### Entity model and backend capability interface

`container.Config` and `network.NetworkingConfig` are external SDK types whose
contents the orchestration code only passes through to the backend; they are
modelled as opaque payload records.  `io.WriteCloser` sinks are modelled by
their identity (`Option Nat`, `none` = nil sink), `io.ReadCloser` streams by a
`Nat` handle, and `io.Reader` build contexts by a `Nat` handle. -/

/-- Identity of a telemetry sink (`io.WriteCloser`). -/
abbrev SinkId : Type := Nat

/-- Handle of a backend byte stream (`io.ReadCloser`). -/
abbrev StreamId : Type := Nat

/-- Opaque payload of `container.Config`. -/
structure ContainerConfig : Type where
  Image : String
  Env : List String
deriving DecidableEq

/-- Opaque payload of `network.NetworkingConfig`. -/
structure NetworkingConfig : Type where
  Endpoints : List (String × String)
deriving DecidableEq

/-- `type Container struct` (docker.go lines 85-94). -/
structure Container : Type where
  Name : String
  Config : ContainerConfig
  Network : NetworkingConfig
  LogSink : Option SinkId
  StatSink : Option SinkId
  ID : String
deriving DecidableEq

/-- `network.Summary` as used by `networkNameSet`. -/
structure NetworkSummary : Type where
  Name : String
  ID : String
deriving DecidableEq

/-- `image.Summary` as used by `imageTagSet`. -/
structure ImageSummary : Type where
  RepoTags : List String
deriving DecidableEq

/-- `type Network struct` (docker.go lines 246-252). -/
structure Network : Type where
  Name : String
  ID : String
deriving DecidableEq

/-- `type Image struct` (docker.go lines 311-315). -/
structure Image : Type where
  Tag : String
  Rebuild : Bool
  BuildCtx : Nat
deriving DecidableEq

/-- The Docker SDK client surface used by docker.go, as state transformers
over a backend state `β`.  `ImageBuild` already includes the
`osutil.DrainCloseErr` handling of the response body, so its observable
outcome is a single optional error. -/
structure DockerClient (β : Type) : Type where
  ContainerCreate : β → ContainerConfig → NetworkingConfig → String →
    β × Except GoErr String
  ContainerStart : β → String → β × Option GoErr
  ContainerStop : β → String → β × Option GoErr
  ContainerRemove : β → String → β × Option GoErr
  ContainerLogs : β → String → β × Except GoErr StreamId
  ContainerStats : β → String → β × Except GoErr StreamId
  NetworkList : β → β × Except GoErr (List NetworkSummary)
  NetworkCreate : β → String → β × Except GoErr String
  ImageList : β → β × Except GoErr (List ImageSummary)
  ImageBuild : β → Nat → List String → β × Option GoErr

/-- `ContainerCreateStep` (docker.go lines 96-107): create each container in
order, assigning the returned ID into the record; the first backend error
returns a wrapped error naming the container and stops the loop.  The updated
records are returned alongside the backend state. -/
def ContainerCreateStep (c : DockerClient β) :
    List Container → β → List Container × β × Option GoErr
  | [], b => ([], b, none)
  | s :: rest, b =>
    match c.ContainerCreate b s.Config s.Network s.Name with
    | (b1, Except.error e) =>
        (s :: rest, b1,
          some (GoErr.wrap ("failed to create " ++ s.Name ++ " container") e))
    | (b1, Except.ok cid) =>
      let out := ContainerCreateStep c rest b1
      ({ s with ID := cid } :: out.1, out.2)

/-- `ContainerStartStep` (docker.go lines 109-118). -/
def ContainerStartStep (c : DockerClient β) :
    List Container → β → β × Option GoErr
  | [], b => (b, none)
  | s :: rest, b =>
    match c.ContainerStart b s.ID with
    | (b1, some e) =>
        (b1, some (GoErr.wrap ("failed to start " ++ s.Name ++ " container") e))
    | (b1, none) => ContainerStartStep c rest b1

/-- `ContainerStopStep` (docker.go lines 208-218). -/
def ContainerStopStep (c : DockerClient β) :
    List Container → β → β × Option GoErr
  | [], b => (b, none)
  | s :: rest, b =>
    match c.ContainerStop b s.ID with
    | (b1, some e) =>
        (b1, some (GoErr.wrap ("failed to stop " ++ s.Name ++ " container") e))
    | (b1, none) => ContainerStopStep c rest b1

/-- `ContainerRemoveStep` (docker.go lines 220-230). -/
def ContainerRemoveStep (c : DockerClient β) :
    List Container → β → β × Option GoErr
  | [], b => (b, none)
  | s :: rest, b =>
    match c.ContainerRemove b s.ID with
    | (b1, some e) =>
        (b1, some (GoErr.wrap ("failed to remove " ++ s.Name ++ " container") e))
    | (b1, none) => ContainerRemoveStep c rest b1

/-- A background log-copy goroutine forked by `ContainerLogStep`: it captures
the container record and the opened log stream. -/
structure LogWorker : Type where
  cnt : Container
  stream : StreamId
deriving DecidableEq

/-- A background stat-copy goroutine forked by `ContainerStreamStatStep`. -/
structure StatWorker : Type where
  cnt : Container
  stream : StreamId
deriving DecidableEq

/-- `ContainerLogStep` (docker.go lines 124-153): containers with a nil
`LogSink` are skipped; otherwise a log stream is opened (the first open error
returns wrapped, naming the container) and a background worker is forked.  The
returned list holds the forked workers in order. -/
def ContainerLogStep (c : DockerClient β) (errLogSink : SinkId) :
    List Container → β → β × List LogWorker × Option GoErr
  | [], b => (b, [], none)
  | s :: rest, b =>
    match s.LogSink with
    | none => ContainerLogStep c errLogSink rest b
    | some _ =>
      match c.ContainerLogs b s.ID with
      | (b1, Except.error e) =>
          (b1, [],
            some (GoErr.wrap ("failed to get logs for " ++ s.Name ++ " container") e))
      | (b1, Except.ok stream) =>
        let out := ContainerLogStep c errLogSink rest b1
        (out.1, LogWorker.mk s stream :: out.2.1, out.2.2)

/-- `ContainerStreamStatStep` (docker.go lines 159-183): identical shape over
`StatSink` and `ContainerStats`. -/
def ContainerStreamStatStep (c : DockerClient β) (errLogSink : SinkId) :
    List Container → β → β × List StatWorker × Option GoErr
  | [], b => (b, [], none)
  | s :: rest, b =>
    match s.StatSink with
    | none => ContainerStreamStatStep c errLogSink rest b
    | some _ =>
      match c.ContainerStats b s.ID with
      | (b1, Except.error e) =>
          (b1, [],
            some (GoErr.wrap ("failed to get " ++ s.Name ++ " container stats") e))
      | (b1, Except.ok stream) =>
        let out := ContainerStreamStatStep c errLogSink rest b1
        (out.1, StatWorker.mk s stream :: out.2.1, out.2.2)

/-- A close event: closing a backend stream or closing a sink. -/
inductive CloseEv : Type where
  | stream : StreamId → CloseEv
  | sink : SinkId → CloseEv
deriving DecidableEq

/-- The closes performed by a log worker when its copy ends (docker.go lines
142-148): `in.Close()` then `cnt.LogSink.Close()`.  Workers are only forked
for containers with a non-nil `LogSink`. -/
def logWorkerCloses (w : LogWorker) : List CloseEv :=
  CloseEv.stream w.stream ::
    (match w.cnt.LogSink with
     | some h => [CloseEv.sink h]
     | none => [])

/-- The closes performed by a stat worker when its copy ends (docker.go lines
172-178): `r.Body.Close()` then `cnt.StatSink.Close()`. -/
def statWorkerCloses (w : StatWorker) : List CloseEv :=
  CloseEv.stream w.stream ::
    (match w.cnt.StatSink with
     | some h => [CloseEv.sink h]
     | none => [])

/-- `EnsureContainerSinkCloseStep` (docker.go lines 232-244): closes every
non-nil log and stat sink unconditionally, ignoring close errors, and always
returns nil. -/
def EnsureContainerSinkCloseStep : List Container → List CloseEv × Option GoErr
  | [] => ([], none)
  | s :: rest =>
    ((match s.LogSink with
      | some h => [CloseEv.sink h]
      | none => []) ++
     (match s.StatSink with
      | some h => [CloseEv.sink h]
      | none => []) ++
     (EnsureContainerSinkCloseStep rest).1, none)

/-- `func networkNameSet` (docker.go lines 352-358): the set of existing
network names, modelled as the key list of the Go map (membership coincides
with map lookup). -/
def networkNameSet (nets : List NetworkSummary) : List String :=
  nets.map (fun n => n.Name)

/-- `func imageTagSet` (docker.go lines 342-350): the set of all repo tags. -/
def imageTagSet (imgs : List ImageSummary) : List String :=
  (imgs.map (fun i => i.RepoTags)).flatten

/-- The per-spec loop of `EnsureNetworkStep` (docker.go lines 266-277): a spec
whose name is in the existing-name set is skipped unchanged; otherwise the
network is created and the returned ID assigned into the record; the first
create error returns wrapped, naming the network. -/
def ensureNetworkLoop (c : DockerClient β) (names : List String) :
    List Network → β → List Network × β × Option GoErr
  | [], b => ([], b, none)
  | s :: rest, b =>
    if names.contains s.Name then
      let out := ensureNetworkLoop c names rest b
      (s :: out.1, out.2)
    else
      match c.NetworkCreate b s.Name with
      | (b1, Except.error e) =>
          (s :: rest, b1,
            some (GoErr.wrap ("failed to create " ++ s.Name ++ " network") e))
      | (b1, Except.ok nid) =>
        let out := ensureNetworkLoop c names rest b1
        ({ s with ID := nid } :: out.1, out.2)

/-- `EnsureNetworkStep` (docker.go lines 254-280). -/
def EnsureNetworkStep (c : DockerClient β) (specs : List Network) (b : β) :
    List Network × β × Option GoErr :=
  if specs.length < 1 then (specs, b, none)
  else
    match c.NetworkList b with
    | (b1, Except.error e) =>
        (specs, b1, some (GoErr.wrap "failed listing networks" e))
    | (b1, Except.ok nets) => ensureNetworkLoop c (networkNameSet nets) specs b1

/-- The per-spec loop of `EnsureImageStep` (docker.go lines 329-336): an image
is (re)built when its tag is missing from the existing-tag set or `Rebuild` is
set; the first build error returns wrapped, naming the tag. -/
def ensureImageLoop (c : DockerClient β) (tags : List String) :
    List Image → β → β × Option GoErr
  | [], b => (b, none)
  | s :: rest, b =>
    if !(tags.contains s.Tag) || s.Rebuild then
      match c.ImageBuild b s.BuildCtx [s.Tag] with
      | (b1, some e) =>
          (b1, some (GoErr.wrap ("failed building image " ++ s.Tag) e))
      | (b1, none) => ensureImageLoop c tags rest b1
    else ensureImageLoop c tags rest b

/-- `EnsureImageStep` (docker.go lines 317-340). -/
def EnsureImageStep (c : DockerClient β) (specs : List Image) (b : β) :
    β × Option GoErr :=
  if specs.length < 1 then (b, none)
  else
    match c.ImageList b with
    | (b1, Except.error e) =>
        (b1, some (GoErr.wrap "failed listing images" e))
    | (b1, Except.ok res) => ensureImageLoop c (imageTagSet res) specs b1

/-! ### A deterministic in-memory backend

Used for the idempotence claims: listing reflects earlier creations, creation
appends a fresh entity and records the call in a log. -/

/-- In-memory Docker backend state with call logs. -/
structure FakeDocker : Type where
  networks : List NetworkSummary
  images : List ImageSummary
  containers : List (String × String)
  netCreates : List String
  imgBuilds : List (List String)
  nextId : Nat
deriving DecidableEq

/-- The deterministic in-memory client: every call succeeds, listing returns
the current entities, and create/build calls append to the state and to the
corresponding call log. -/
def fakeClient : DockerClient FakeDocker where
  ContainerCreate := fun b _cfg _net name =>
    ({ b with containers := b.containers ++ [("ctr-" ++ toString b.nextId, name)],
              nextId := b.nextId + 1 },
     Except.ok ("ctr-" ++ toString b.nextId))
  ContainerStart := fun b _ => (b, none)
  ContainerStop := fun b _ => (b, none)
  ContainerRemove := fun b _ => (b, none)
  ContainerLogs := fun b _ => ({ b with nextId := b.nextId + 1 }, Except.ok b.nextId)
  ContainerStats := fun b _ => ({ b with nextId := b.nextId + 1 }, Except.ok b.nextId)
  NetworkList := fun b => (b, Except.ok b.networks)
  NetworkCreate := fun b name =>
    ({ b with networks := b.networks ++ [NetworkSummary.mk name ("net-" ++ toString b.nextId)],
              netCreates := b.netCreates ++ [name],
              nextId := b.nextId + 1 },
     Except.ok ("net-" ++ toString b.nextId))
  ImageList := fun b => (b, Except.ok b.images)
  ImageBuild := fun b _ctx tags =>
    ({ b with images := b.images ++ [ImageSummary.mk tags],
              imgBuilds := b.imgBuilds ++ [tags] },
     none)

/-- The backend state after `fakeClient.NetworkCreate b name`. -/
def fakeNetCreateState (b : FakeDocker) (name : String) : FakeDocker :=
  { b with
    networks := b.networks ++ [NetworkSummary.mk name ("net-" ++ toString b.nextId)]
    netCreates := b.netCreates ++ [name]
    nextId := b.nextId + 1 }

theorem ensureNetworkLoop_fake_mem (names : List String) (s : Network)
    (rest : List Network) (b : FakeDocker) (hm : s.Name ∈ names) :
    ensureNetworkLoop fakeClient names (s :: rest) b
      = (s :: (ensureNetworkLoop fakeClient names rest b).1,
         (ensureNetworkLoop fakeClient names rest b).2) := by
  simp only [ensureNetworkLoop]
  rw [if_pos (by simpa using hm)]

theorem ensureNetworkLoop_fake_notmem (names : List String) (s : Network)
    (rest : List Network) (b : FakeDocker) (hm : ¬ s.Name ∈ names) :
    ensureNetworkLoop fakeClient names (s :: rest) b
      = ({ s with ID := "net-" ++ toString b.nextId } ::
           (ensureNetworkLoop fakeClient names rest (fakeNetCreateState b s.Name)).1,
         (ensureNetworkLoop fakeClient names rest (fakeNetCreateState b s.Name)).2) := by
  simp only [ensureNetworkLoop]
  rw [if_neg (by simpa using hm)]
  exact rfl

theorem ensureNetworkLoop_creates (specs : List Network) (names : List String)
    (b : FakeDocker) :
    ∃ δ, (ensureNetworkLoop fakeClient names specs b).2.1.netCreates
        = b.netCreates ++ δ
      ∧ ∀ nm ∈ δ, names.contains nm = false := by
  induction specs generalizing b with
  | nil => exact ⟨[], by simp [ensureNetworkLoop], by simp⟩
  | cons s rest ih =>
    cases hc : names.contains s.Name with
    | true =>
      have hm : s.Name ∈ names := by simpa using hc
      obtain ⟨δ, hδ, hall⟩ := ih b
      refine ⟨δ, ?_, hall⟩
      rw [ensureNetworkLoop_fake_mem names s rest b hm]
      exact hδ
    | false =>
      have hm : ¬ s.Name ∈ names := by simpa using hc
      obtain ⟨δ, hδ, hall⟩ := ih (fakeNetCreateState b s.Name)
      refine ⟨s.Name :: δ, ?_, ?_⟩
      · rw [ensureNetworkLoop_fake_notmem names s rest b hm]
        rw [show ({ s with ID := "net-" ++ toString b.nextId } ::
              (ensureNetworkLoop fakeClient names rest (fakeNetCreateState b s.Name)).1,
            (ensureNetworkLoop fakeClient names rest (fakeNetCreateState b s.Name)).2).2.1
            = (ensureNetworkLoop fakeClient names rest (fakeNetCreateState b s.Name)).2.1
          from rfl]
        rw [hδ]
        simp [fakeNetCreateState]
      · intro nm hnm
        rcases List.mem_cons.mp hnm with h | h
        · subst h
          exact hc
        · exact hall nm h

theorem ensureNetworkLoop_skipped (names : List String) (specs : List Network)
    (b : FakeDocker) (i : Nat) (hi : i < specs.length)
    (hmem : (specs.get ⟨i, hi⟩).Name ∈ names) :
    (ensureNetworkLoop fakeClient names specs b).1[i]?
      = some (specs.get ⟨i, hi⟩) := by
  induction specs generalizing b i with
  | nil => simp at hi
  | cons s rest ih =>
    cases i with
    | zero =>
      rw [ensureNetworkLoop_fake_mem names s rest b (by simpa using hmem)]
      simp
    | succ i =>
      have hi2 : i < rest.length := by simpa using hi
      have hmem2 : (rest.get ⟨i, hi2⟩).Name ∈ names := hmem
      cases hc : names.contains s.Name with
      | true =>
        rw [ensureNetworkLoop_fake_mem names s rest b (by simpa using hc)]
        simpa using ih b i hi2 hmem2
      | false =>
        rw [ensureNetworkLoop_fake_notmem names s rest b (by simpa using hc)]
        simpa using ih (fakeNetCreateState b s.Name) i hi2 hmem2

theorem EnsureNetworkStep_fake_eq (specs : List Network) (b : FakeDocker) :
    EnsureNetworkStep fakeClient specs b
      = ensureNetworkLoop fakeClient (networkNameSet b.networks) specs b := by
  cases specs with
  | nil => simp [EnsureNetworkStep, ensureNetworkLoop]
  | cons s rest =>
    simp only [EnsureNetworkStep]
    rw [if_neg (by simp)]
    exact rfl

/-- Counterexample to claim C2: backend already holds a network named `n`
with ID `abc`; the step skips the spec but leaves its `ID` field empty — the
existing ID is not copied into the record. -/
theorem claim_C2_cex :
    EnsureNetworkStep fakeClient [Network.mk "n" ""]
        (FakeDocker.mk [NetworkSummary.mk "n" "abc"] [] [] [] [] 0)
      = ([Network.mk "n" ""],
         FakeDocker.mk [NetworkSummary.mk "n" "abc"] [] [] [] [] 0, none)
    ∧ (Network.mk "n" "").ID ≠ "abc" := by
  decide

/-- Claim C2 (amended): a spec whose `Name` already appears in the backend's
network list triggers no create call for that name (every create performed by
the step is for a missing name) and its record is returned unchanged at the
same position — in particular its `ID` keeps its prior value and is not
populated with the existing network's ID. -/
theorem claim_C2 (b : FakeDocker) (specs : List Network) (i : Nat)
    (hi : i < specs.length)
    (hmem : (specs.get ⟨i, hi⟩).Name ∈ networkNameSet b.networks) :
    (EnsureNetworkStep fakeClient specs b).1[i]? = some (specs.get ⟨i, hi⟩)
    ∧ ∃ δ, (EnsureNetworkStep fakeClient specs b).2.1.netCreates
          = b.netCreates ++ δ
        ∧ ¬ (specs.get ⟨i, hi⟩).Name ∈ δ := by
  rw [EnsureNetworkStep_fake_eq]
  refine ⟨ensureNetworkLoop_skipped _ _ _ _ hi hmem, ?_⟩
  obtain ⟨δ, hδ, hall⟩ :=
    ensureNetworkLoop_creates specs (networkNameSet b.networks) b
  refine ⟨δ, hδ, ?_⟩
  intro hin
  have h2 : ¬ (specs.get ⟨i, hi⟩).Name ∈ networkNameSet b.networks := by
    simpa using hall _ hin
  exact h2 hmem

/-- Witness for amended claim C2: the backend holds network `n`; of the two
specs, `m` is created and `n` is skipped unchanged with no create call. -/
theorem claim_C2_witness :
    (EnsureNetworkStep fakeClient [Network.mk "m" "", Network.mk "n" ""]
        (FakeDocker.mk [NetworkSummary.mk "n" "abc"] [] [] [] [] 0)).1[1]?
      = some (Network.mk "n" "")
    ∧ ∃ δ, (EnsureNetworkStep fakeClient [Network.mk "m" "", Network.mk "n" ""]
          (FakeDocker.mk [NetworkSummary.mk "n" "abc"] [] [] [] [] 0)).2.1.netCreates
        = [] ++ δ
      ∧ ¬ (Network.mk "n" "").Name ∈ δ :=
  claim_C2 (FakeDocker.mk [NetworkSummary.mk "n" "abc"] [] [] [] [] 0)
    [Network.mk "m" "", Network.mk "n" ""] 1 (by decide) (by decide)

/-- The backend state after `fakeClient.ImageBuild b ctx tags`. -/
def fakeImgBuildState (b : FakeDocker) (tags : List String) : FakeDocker :=
  { b with
    images := b.images ++ [ImageSummary.mk tags]
    imgBuilds := b.imgBuilds ++ [tags] }

theorem ensureImageLoop_fake_build (tags : List String) (s : Image)
    (rest : List Image) (b : FakeDocker)
    (hcond : (!(tags.contains s.Tag) || s.Rebuild) = true) :
    ensureImageLoop fakeClient tags (s :: rest) b
      = ensureImageLoop fakeClient tags rest (fakeImgBuildState b [s.Tag]) := by
  simp only [ensureImageLoop]
  rw [if_pos hcond]
  exact rfl

theorem ensureImageLoop_fake_skip (tags : List String) (s : Image)
    (rest : List Image) (b : FakeDocker)
    (hcond : (!(tags.contains s.Tag) || s.Rebuild) = false) :
    ensureImageLoop fakeClient tags (s :: rest) b
      = ensureImageLoop fakeClient tags rest b := by
  simp only [ensureImageLoop]
  rw [if_neg (ne_true_of_eq_false hcond)]

theorem EnsureImageStep_fake_eq (specs : List Image) (b : FakeDocker) :
    EnsureImageStep fakeClient specs b
      = ensureImageLoop fakeClient (imageTagSet b.images) specs b := by
  cases specs with
  | nil => simp [EnsureImageStep, ensureImageLoop]
  | cons s rest =>
    simp only [EnsureImageStep]
    rw [if_neg (by simp)]
    exact rfl

/-- Claim C6: the ensure steps are idempotent against a backend whose list
calls reflect earlier creations: running `EnsureNetworkStep` twice on a spec
whose network is initially missing performs exactly one create call, and
running `EnsureImageStep` twice on a spec with `Rebuild = false` whose tag is
initially missing performs exactly one build call. -/
theorem claim_C6 (b : FakeDocker) (s : Network) (im : Image)
    (hn : ¬ s.Name ∈ networkNameSet b.networks)
    (hr : im.Rebuild = false)
    (ht : ¬ im.Tag ∈ imageTagSet b.images) :
    (EnsureNetworkStep fakeClient
        (EnsureNetworkStep fakeClient [s] b).1
        (EnsureNetworkStep fakeClient [s] b).2.1).2.1.netCreates
      = b.netCreates ++ [s.Name]
    ∧ (EnsureImageStep fakeClient [im]
        (EnsureImageStep fakeClient [im] b).1).1.imgBuilds
      = b.imgBuilds ++ [[im.Tag]] := by
  constructor
  · have e1 : EnsureNetworkStep fakeClient [s] b
        = ([{ s with ID := "net-" ++ toString b.nextId }],
           fakeNetCreateState b s.Name, none) := by
      rw [EnsureNetworkStep_fake_eq]
      rw [ensureNetworkLoop_fake_notmem _ _ _ _ hn]
      simp [ensureNetworkLoop]
    rw [e1]
    rw [EnsureNetworkStep_fake_eq]
    rw [ensureNetworkLoop_fake_mem _ _ _ _
      (by simp [fakeNetCreateState, networkNameSet])]
    simp [ensureNetworkLoop, fakeNetCreateState]
  · have hc1 : (!((imageTagSet b.images).contains im.Tag) || im.Rebuild) = true := by
      rw [hr]
      simpa using ht
    have e1 : EnsureImageStep fakeClient [im] b
        = (fakeImgBuildState b [im.Tag], none) := by
      rw [EnsureImageStep_fake_eq]
      rw [ensureImageLoop_fake_build _ _ _ _ hc1]
      simp [ensureImageLoop]
    rw [e1]
    rw [EnsureImageStep_fake_eq]
    have hc2 : (!((imageTagSet (fakeImgBuildState b [im.Tag]).images).contains im.Tag)
        || im.Rebuild) = false := by
      rw [hr]
      simp [fakeImgBuildState, imageTagSet]
    rw [ensureImageLoop_fake_skip _ _ _ _ hc2]
    simp [ensureImageLoop, fakeImgBuildState]

/-- Witness for claim C6 on an empty backend with one network spec and one
image spec. -/
theorem claim_C6_witness :
    (EnsureNetworkStep fakeClient
        (EnsureNetworkStep fakeClient [Network.mk "n" ""]
          (FakeDocker.mk [] [] [] [] [] 0)).1
        (EnsureNetworkStep fakeClient [Network.mk "n" ""]
          (FakeDocker.mk [] [] [] [] [] 0)).2.1).2.1.netCreates
      = [] ++ ["n"]
    ∧ (EnsureImageStep fakeClient [Image.mk "t" false 7]
        (EnsureImageStep fakeClient [Image.mk "t" false 7]
          (FakeDocker.mk [] [] [] [] [] 0)).1).1.imgBuilds
      = [] ++ [["t"]] :=
  claim_C6 (FakeDocker.mk [] [] [] [] [] 0) (Network.mk "n" "")
    (Image.mk "t" false 7) (by decide) (by decide) (by decide)

theorem ContainerCreateStep_append_ok {β : Type} (c : DockerClient β)
    (l1 l2 : List Container) (b : β)
    (h : (ContainerCreateStep c l1 b).2.2 = none) :
    ContainerCreateStep c (l1 ++ l2) b
      = ((ContainerCreateStep c l1 b).1
           ++ (ContainerCreateStep c l2 (ContainerCreateStep c l1 b).2.1).1,
         (ContainerCreateStep c l2 (ContainerCreateStep c l1 b).2.1).2) := by
  induction l1 generalizing b with
  | nil => simp [ContainerCreateStep]
  | cons s rest ih =>
    rw [List.cons_append]
    cases hcc : c.ContainerCreate b s.Config s.Network s.Name with
    | mk b1 res =>
      cases res with
      | error e =>
        have h2 : (ContainerCreateStep c (s :: rest) b).2.2
            = some (GoErr.wrap ("failed to create " ++ s.Name ++ " container") e) := by
          simp only [ContainerCreateStep]
          rw [hcc]
        rw [h2] at h
        exact Option.noConfusion h
      | ok cid =>
        have hstep : ∀ l : List Container, ContainerCreateStep c (s :: l) b
            = ({ s with ID := cid } :: (ContainerCreateStep c l b1).1,
               (ContainerCreateStep c l b1).2) := by
          intro l
          simp only [ContainerCreateStep]
          rw [hcc]
        rw [hstep rest] at h
        have h2 : (ContainerCreateStep c rest b1).2.2 = none := h
        rw [hstep (rest ++ l2), hstep rest]
        rw [ih b1 h2]
        simp

theorem ContainerStartStep_append_ok {β : Type} (c : DockerClient β)
    (l1 l2 : List Container) (b : β)
    (h : (ContainerStartStep c l1 b).2 = none) :
    ContainerStartStep c (l1 ++ l2) b
      = ContainerStartStep c l2 (ContainerStartStep c l1 b).1 := by
  induction l1 generalizing b with
  | nil => simp [ContainerStartStep]
  | cons s rest ih =>
    rw [List.cons_append]
    cases hcc : c.ContainerStart b s.ID with
    | mk b1 res =>
      cases res with
      | some e =>
        have h2 : (ContainerStartStep c (s :: rest) b).2
            = some (GoErr.wrap ("failed to start " ++ s.Name ++ " container") e) := by
          simp only [ContainerStartStep]
          rw [hcc]
        rw [h2] at h
        exact Option.noConfusion h
      | none =>
        have hstep : ∀ l : List Container, ContainerStartStep c (s :: l) b
            = ContainerStartStep c l b1 := by
          intro l
          simp only [ContainerStartStep]
          rw [hcc]
        rw [hstep rest] at h
        rw [hstep (rest ++ l2), hstep rest]
        exact ih b1 h

theorem ContainerStopStep_append_ok {β : Type} (c : DockerClient β)
    (l1 l2 : List Container) (b : β)
    (h : (ContainerStopStep c l1 b).2 = none) :
    ContainerStopStep c (l1 ++ l2) b
      = ContainerStopStep c l2 (ContainerStopStep c l1 b).1 := by
  induction l1 generalizing b with
  | nil => simp [ContainerStopStep]
  | cons s rest ih =>
    rw [List.cons_append]
    cases hcc : c.ContainerStop b s.ID with
    | mk b1 res =>
      cases res with
      | some e =>
        have h2 : (ContainerStopStep c (s :: rest) b).2
            = some (GoErr.wrap ("failed to stop " ++ s.Name ++ " container") e) := by
          simp only [ContainerStopStep]
          rw [hcc]
        rw [h2] at h
        exact Option.noConfusion h
      | none =>
        have hstep : ∀ l : List Container, ContainerStopStep c (s :: l) b
            = ContainerStopStep c l b1 := by
          intro l
          simp only [ContainerStopStep]
          rw [hcc]
        rw [hstep rest] at h
        rw [hstep (rest ++ l2), hstep rest]
        exact ih b1 h

theorem ContainerRemoveStep_append_ok {β : Type} (c : DockerClient β)
    (l1 l2 : List Container) (b : β)
    (h : (ContainerRemoveStep c l1 b).2 = none) :
    ContainerRemoveStep c (l1 ++ l2) b
      = ContainerRemoveStep c l2 (ContainerRemoveStep c l1 b).1 := by
  induction l1 generalizing b with
  | nil => simp [ContainerRemoveStep]
  | cons s rest ih =>
    rw [List.cons_append]
    cases hcc : c.ContainerRemove b s.ID with
    | mk b1 res =>
      cases res with
      | some e =>
        have h2 : (ContainerRemoveStep c (s :: rest) b).2
            = some (GoErr.wrap ("failed to remove " ++ s.Name ++ " container") e) := by
          simp only [ContainerRemoveStep]
          rw [hcc]
        rw [h2] at h
        exact Option.noConfusion h
      | none =>
        have hstep : ∀ l : List Container, ContainerRemoveStep c (s :: l) b
            = ContainerRemoveStep c l b1 := by
          intro l
          simp only [ContainerRemoveStep]
          rw [hcc]
        rw [hstep rest] at h
        rw [hstep (rest ++ l2), hstep rest]
        exact ih b1 h

/-- Claim C7: each of the create/start/stop/remove steps processes the
containers in the caller-supplied order (the prefix is executed first, the
state threads through it) and fails fast: on the first backend error for a
container it returns an error wrapping that container's name without
attempting any later container (the suffix does not influence the result). -/
theorem claim_C7 {β : Type} (c : DockerClient β) (l1 l2 : List Container)
    (s : Container) (b b2 : β) (e : GoErr) :
    ((ContainerCreateStep c l1 b).2.2 = none →
      c.ContainerCreate (ContainerCreateStep c l1 b).2.1 s.Config s.Network s.Name
        = (b2, Except.error e) →
      ContainerCreateStep c (l1 ++ s :: l2) b
        = ((ContainerCreateStep c l1 b).1 ++ s :: l2, b2,
           some (GoErr.wrap ("failed to create " ++ s.Name ++ " container") e)))
    ∧ ((ContainerStartStep c l1 b).2 = none →
       c.ContainerStart (ContainerStartStep c l1 b).1 s.ID = (b2, some e) →
       ContainerStartStep c (l1 ++ s :: l2) b
         = (b2, some (GoErr.wrap ("failed to start " ++ s.Name ++ " container") e)))
    ∧ ((ContainerStopStep c l1 b).2 = none →
       c.ContainerStop (ContainerStopStep c l1 b).1 s.ID = (b2, some e) →
       ContainerStopStep c (l1 ++ s :: l2) b
         = (b2, some (GoErr.wrap ("failed to stop " ++ s.Name ++ " container") e)))
    ∧ ((ContainerRemoveStep c l1 b).2 = none →
       c.ContainerRemove (ContainerRemoveStep c l1 b).1 s.ID = (b2, some e) →
       ContainerRemoveStep c (l1 ++ s :: l2) b
         = (b2, some (GoErr.wrap ("failed to remove " ++ s.Name ++ " container") e))) := by
  refine ⟨?_, ?_, ?_, ?_⟩
  · intro h1 h2
    rw [ContainerCreateStep_append_ok c l1 (s :: l2) b h1]
    simp only [ContainerCreateStep]
    rw [h2]
  · intro h1 h2
    rw [ContainerStartStep_append_ok c l1 (s :: l2) b h1]
    simp only [ContainerStartStep]
    rw [h2]
  · intro h1 h2
    rw [ContainerStopStep_append_ok c l1 (s :: l2) b h1]
    simp only [ContainerStopStep]
    rw [h2]
  · intro h1 h2
    rw [ContainerRemoveStep_append_ok c l1 (s :: l2) b h1]
    simp only [ContainerRemoveStep]
    rw [h2]

/-- A scripted client over a call-counter state: operations on the container
named `bad` (ID `badid`) fail, everything else succeeds. -/
def errClient : DockerClient Nat where
  ContainerCreate := fun b _cfg _net name =>
    (b + 1, if name = "bad" then Except.error (GoErr.base "cfail")
      else Except.ok ("ctr-" ++ toString b))
  ContainerStart := fun b cid =>
    (b + 1, if cid = "badid" then some (GoErr.base "sfail") else none)
  ContainerStop := fun b cid =>
    (b + 1, if cid = "badid" then some (GoErr.base "pfail") else none)
  ContainerRemove := fun b cid =>
    (b + 1, if cid = "badid" then some (GoErr.base "rfail") else none)
  ContainerLogs := fun b cid =>
    (b + 1, if cid = "badid" then Except.error (GoErr.base "lfail")
      else Except.ok b)
  ContainerStats := fun b cid =>
    (b + 1, if cid = "badid" then Except.error (GoErr.base "tfail")
      else Except.ok b)
  NetworkList := fun b => (b, Except.ok [])
  NetworkCreate := fun b name => (b + 1, Except.ok name)
  ImageList := fun b => (b, Except.ok [])
  ImageBuild := fun b _ctx _tags => (b, none)

/-- A container every backend call accepts. -/
def cGood : Container :=
  Container.mk "good" (ContainerConfig.mk "img" []) (NetworkingConfig.mk [])
    none none "gid"

/-- The container `errClient` rejects. -/
def cBad : Container :=
  Container.mk "bad" (ContainerConfig.mk "img" []) (NetworkingConfig.mk [])
    none none "badid"

/-- Witness for claim C7: the middle container of three fails each step; the
third is never attempted (two backend calls made), and the error wraps the
failing container's name. -/
theorem claim_C7_witness :
    ContainerCreateStep errClient [cGood, cBad, cGood] 0
      = ([{ cGood with ID := "ctr-0" }, cBad, cGood], 2,
         some (GoErr.wrap "failed to create bad container" (GoErr.base "cfail")))
    ∧ ContainerStartStep errClient [cGood, cBad, cGood] 0
      = (2, some (GoErr.wrap "failed to start bad container" (GoErr.base "sfail")))
    ∧ ContainerStopStep errClient [cGood, cBad, cGood] 0
      = (2, some (GoErr.wrap "failed to stop bad container" (GoErr.base "pfail")))
    ∧ ContainerRemoveStep errClient [cGood, cBad, cGood] 0
      = (2, some (GoErr.wrap "failed to remove bad container" (GoErr.base "rfail"))) :=
  ⟨(claim_C7 errClient [cGood] [cGood] cBad 0 2 (GoErr.base "cfail")).1
      (by decide) rfl,
   (claim_C7 errClient [cGood] [cGood] cBad 0 2 (GoErr.base "sfail")).2.1
      (by decide) (by decide),
   (claim_C7 errClient [cGood] [cGood] cBad 0 2 (GoErr.base "pfail")).2.2.1
      (by decide) (by decide),
   (claim_C7 errClient [cGood] [cGood] cBad 0 2 (GoErr.base "rfail")).2.2.2
      (by decide) (by decide)⟩

theorem ContainerCreateStep_length {β : Type} (c : DockerClient β)
    (l : List Container) (b : β) :
    (ContainerCreateStep c l b).1.length = l.length := by
  induction l generalizing b with
  | nil => simp [ContainerCreateStep]
  | cons s rest ih =>
    simp only [ContainerCreateStep]
    cases hcc : c.ContainerCreate b s.Config s.Network s.Name with
    | mk b1 res =>
      cases res with
      | error e => simp
      | ok cid => simp [ih b1]

/-- Claim C10: the create step is not atomic on failure: when the backend
create call fails for the i-th container, the records of containers before i
keep the IDs the step already assigned (no rollback) and the failing container
and all later containers are returned untouched, keeping their prior IDs. -/
theorem claim_C10 {β : Type} (c : DockerClient β) (l1 l2 : List Container)
    (s : Container) (b b2 : β) (e : GoErr)
    (h1 : (ContainerCreateStep c l1 b).2.2 = none)
    (h2 : c.ContainerCreate (ContainerCreateStep c l1 b).2.1 s.Config s.Network s.Name
        = (b2, Except.error e)) :
    (ContainerCreateStep c (l1 ++ s :: l2) b).1
      = (ContainerCreateStep c l1 b).1 ++ s :: l2
    ∧ (ContainerCreateStep c l1 b).1.length = l1.length
    ∧ (ContainerCreateStep c (l1 ++ s :: l2) b).2.2
      = some (GoErr.wrap ("failed to create " ++ s.Name ++ " container") e) := by
  have key : ContainerCreateStep c (l1 ++ s :: l2) b
      = ((ContainerCreateStep c l1 b).1 ++ s :: l2, b2,
         some (GoErr.wrap ("failed to create " ++ s.Name ++ " container") e)) := by
    rw [ContainerCreateStep_append_ok c l1 (s :: l2) b h1]
    simp only [ContainerCreateStep]
    rw [h2]
  rw [key]
  exact ⟨rfl, ContainerCreateStep_length c l1 b, rfl⟩

/-- Witness for claim C10: after the failing create of `bad`, the first
record keeps its freshly assigned ID and the rest are untouched. -/
theorem claim_C10_witness :
    (ContainerCreateStep errClient [cGood, cBad, cGood] 0).1
      = [{ cGood with ID := "ctr-0" }] ++ cBad :: [cGood]
    ∧ (ContainerCreateStep errClient [cGood] 0).1.length = 1
    ∧ (ContainerCreateStep errClient [cGood, cBad, cGood] 0).2.2
      = some (GoErr.wrap "failed to create bad container" (GoErr.base "cfail")) :=
  claim_C10 errClient [cGood] [cGood] cBad 0 2 (GoErr.base "cfail")
    (by decide) rfl

theorem ContainerLogStep_skip {β : Type} (c : DockerClient β) (es : SinkId)
    (l1 l2 : List Container) (s : Container) (b : β) (h : s.LogSink = none) :
    ContainerLogStep c es (l1 ++ s :: l2) b = ContainerLogStep c es (l1 ++ l2) b := by
  induction l1 generalizing b with
  | nil =>
    rw [List.nil_append, List.nil_append]
    simp only [ContainerLogStep, h]
  | cons t rest ih =>
    rw [List.cons_append, List.cons_append]
    cases ht : t.LogSink with
    | none =>
      have hstep : ∀ l : List Container, ContainerLogStep c es (t :: l) b
          = ContainerLogStep c es l b := by
        intro l
        simp only [ContainerLogStep, ht]
      rw [hstep (rest ++ s :: l2), hstep (rest ++ l2)]
      exact ih b
    | some k =>
      cases hlog : c.ContainerLogs b t.ID with
      | mk b1 res =>
        cases res with
        | error e =>
          have hstep : ∀ l : List Container, ContainerLogStep c es (t :: l) b
              = (b1, [],
                 some (GoErr.wrap ("failed to get logs for " ++ t.Name ++ " container") e)) := by
            intro l
            simp only [ContainerLogStep, ht]
            rw [hlog]
          rw [hstep (rest ++ s :: l2), hstep (rest ++ l2)]
        | ok stream =>
          have hstep : ∀ l : List Container, ContainerLogStep c es (t :: l) b
              = ((ContainerLogStep c es l b1).1,
                 LogWorker.mk t stream :: (ContainerLogStep c es l b1).2.1,
                 (ContainerLogStep c es l b1).2.2) := by
            intro l
            simp only [ContainerLogStep, ht]
            rw [hlog]
          rw [hstep (rest ++ s :: l2), hstep (rest ++ l2), ih b1]

theorem ContainerStreamStatStep_skip {β : Type} (c : DockerClient β) (es : SinkId)
    (l1 l2 : List Container) (s : Container) (b : β) (h : s.StatSink = none) :
    ContainerStreamStatStep c es (l1 ++ s :: l2) b
      = ContainerStreamStatStep c es (l1 ++ l2) b := by
  induction l1 generalizing b with
  | nil =>
    rw [List.nil_append, List.nil_append]
    simp only [ContainerStreamStatStep, h]
  | cons t rest ih =>
    rw [List.cons_append, List.cons_append]
    cases ht : t.StatSink with
    | none =>
      have hstep : ∀ l : List Container, ContainerStreamStatStep c es (t :: l) b
          = ContainerStreamStatStep c es l b := by
        intro l
        simp only [ContainerStreamStatStep, ht]
      rw [hstep (rest ++ s :: l2), hstep (rest ++ l2)]
      exact ih b
    | some k =>
      cases hst : c.ContainerStats b t.ID with
      | mk b1 res =>
        cases res with
        | error e =>
          have hstep : ∀ l : List Container, ContainerStreamStatStep c es (t :: l) b
              = (b1, [],
                 some (GoErr.wrap ("failed to get " ++ t.Name ++ " container stats") e)) := by
            intro l
            simp only [ContainerStreamStatStep, ht]
            rw [hst]
          rw [hstep (rest ++ s :: l2), hstep (rest ++ l2)]
        | ok stream =>
          have hstep : ∀ l : List Container, ContainerStreamStatStep c es (t :: l) b
              = ((ContainerStreamStatStep c es l b1).1,
                 StatWorker.mk t stream :: (ContainerStreamStatStep c es l b1).2.1,
                 (ContainerStreamStatStep c es l b1).2.2) := by
            intro l
            simp only [ContainerStreamStatStep, ht]
            rw [hst]
          rw [hstep (rest ++ s :: l2), hstep (rest ++ l2), ih b1]

/-- Claim C8: a container with a nil `LogSink` is silently skipped by the log
streaming step (the run is identical to one without it: no stream is opened
and no worker is forked for it), likewise a nil `StatSink` for the stat step;
a container with both sinks nil produces zero workers in either step and
skipping is not an error. -/
theorem claim_C8 {β : Type} (c : DockerClient β) (es : SinkId)
    (l1 l2 : List Container) (s : Container) (b : β) :
    (s.LogSink = none →
      ContainerLogStep c es (l1 ++ s :: l2) b = ContainerLogStep c es (l1 ++ l2) b)
    ∧ (s.StatSink = none →
      ContainerStreamStatStep c es (l1 ++ s :: l2) b
        = ContainerStreamStatStep c es (l1 ++ l2) b)
    ∧ (s.LogSink = none → s.StatSink = none →
        ContainerLogStep c es [s] b = (b, [], none)
        ∧ ContainerStreamStatStep c es [s] b = (b, [], none)) := by
  refine ⟨fun h => ContainerLogStep_skip c es l1 l2 s b h,
    fun h => ContainerStreamStatStep_skip c es l1 l2 s b h,
    fun hl hst => ⟨?_, ?_⟩⟩
  · simp only [ContainerLogStep, hl]
  · simp only [ContainerStreamStatStep, hst]

/-- A container with both sinks nil used by the C8 witness. -/
def cNoSinks : Container :=
  Container.mk "quiet" (ContainerConfig.mk "img" []) (NetworkingConfig.mk [])
    none none "qid"

/-- A container with both sinks set used by the C8 witness. -/
def cBothSinks : Container :=
  Container.mk "loud" (ContainerConfig.mk "img" []) (NetworkingConfig.mk [])
    (some 3) (some 4) "lid"

/-- Witness for claim C8: a sinkless container among sinked ones leaves both
streaming steps unchanged, and alone it produces no workers and no error. -/
theorem claim_C8_witness :
    (ContainerLogStep errClient 9 [cBothSinks, cNoSinks] 0
      = ContainerLogStep errClient 9 [cBothSinks] 0)
    ∧ (ContainerStreamStatStep errClient 9 [cBothSinks, cNoSinks] 0
      = ContainerStreamStatStep errClient 9 [cBothSinks] 0)
    ∧ (ContainerLogStep errClient 9 [cNoSinks] 0 = (0, [], none)
       ∧ ContainerStreamStatStep errClient 9 [cNoSinks] 0 = (0, [], none)) :=
  ⟨(claim_C8 errClient 9 [cBothSinks] [] cNoSinks 0).1 (by decide),
   (claim_C8 errClient 9 [cBothSinks] [] cNoSinks 0).2.1 (by decide),
   (claim_C8 errClient 9 [] [] cNoSinks 0).2.2 (by decide) (by decide)⟩

/-- The container of the sink-close scenario: a log sink (identity 0) and no
stat sink. -/
def cLogOnly : Container :=
  Container.mk "c" (ContainerConfig.mk "img" []) (NetworkingConfig.mk [])
    (some 0) none "cid"

/-- Close events of a complete run in which the log streaming step forks its
workers, every worker runs to completion (closing its stream and its sink),
and then the sink-lifecycle step `EnsureContainerSinkCloseStep` executes. -/
def runLogThenCloseEvents (es : SinkId) (s : Container) (b : FakeDocker) :
    List CloseEv :=
  ((ContainerLogStep fakeClient es [s] b).2.1.map logWorkerCloses).flatten
    ++ (EnsureContainerSinkCloseStep [s]).1

/-- Counterexample to claim C9: the container's log sink is closed by the
completed log worker and again by `EnsureContainerSinkCloseStep` — twice, not
exactly once. -/
theorem claim_C9_cex :
    (runLogThenCloseEvents 99 cLogOnly
        (FakeDocker.mk [] [] [] [] [] 1)).count (CloseEv.sink 0) = 2
    ∧ ¬ (runLogThenCloseEvents 99 cLogOnly
        (FakeDocker.mk [] [] [] [] [] 1)).count (CloseEv.sink 0) = 1 := by
  decide

/-- Claim C9 (amended): in a complete run each opened stream is closed exactly
once, by its worker, and each non-nil sink is closed at least once — but not
exactly once: a sink handled by both its streaming worker and
`EnsureContainerSinkCloseStep` is closed twice (sink close is expected to
tolerate repeated calls). -/
theorem claim_C9 (es : SinkId) (s : Container) (h : SinkId) (b : FakeDocker)
    (hl : s.LogSink = some h) (hst : s.StatSink = none) :
    (runLogThenCloseEvents es s b).count (CloseEv.sink h) = 2
    ∧ 1 ≤ (runLogThenCloseEvents es s b).count (CloseEv.sink h)
    ∧ (runLogThenCloseEvents es s b).count (CloseEv.stream b.nextId) = 1 := by
  have e1 : ContainerLogStep fakeClient es [s] b
      = ({ b with nextId := b.nextId + 1 }, [LogWorker.mk s b.nextId], none) := by
    simp only [ContainerLogStep, hl]
    exact rfl
  have e2 : runLogThenCloseEvents es s b
      = [CloseEv.stream b.nextId, CloseEv.sink h, CloseEv.sink h] := by
    simp only [runLogThenCloseEvents, e1]
    simp [logWorkerCloses, EnsureContainerSinkCloseStep, hl, hst]
  rw [e2]
  refine ⟨?_, ?_, ?_⟩
  · simp [List.count_cons, beq_iff_eq]
  · simp [List.count_cons, beq_iff_eq]
  · simp [List.count_cons, beq_iff_eq]

/-- Witness for amended claim C9 at the concrete scenario container. -/
theorem claim_C9_witness :
    (runLogThenCloseEvents 99 cLogOnly
        (FakeDocker.mk [] [] [] [] [] 1)).count (CloseEv.sink 0) = 2
    ∧ 1 ≤ (runLogThenCloseEvents 99 cLogOnly
        (FakeDocker.mk [] [] [] [] [] 1)).count (CloseEv.sink 0)
    ∧ (runLogThenCloseEvents 99 cLogOnly
        (FakeDocker.mk [] [] [] [] [] 1)).count (CloseEv.stream 1) = 1 :=
  claim_C9 99 cLogOnly 0 (FakeDocker.mk [] [] [] [] [] 1)
    (by decide) (by decide)

end Orchestration

